import Mathlib

/-
Verification of the authentication and resource-lookup flow of the
eleven-clone backend (src/main.py, src/setup_database.py).

The FastAPI handlers are embedded shallowly as pure Lean functions over an
explicit store state:

* MongoDB collections become Lean lists of documents plus a fresh-id counter;
  `find_one` is `List.find?` on the insertion-ordered list and `insert_one`
  appends a document, failing with a duplicate-key error when a unique index
  (created in src/setup_database.py) is violated.
* bcrypt is modelled symbolically: a value held in a password field is either
  a raw plaintext string or a salted one-way digest term; `hashpw` builds the
  digest term and `checkpw` compares the password carried by a digest.
* bson object ids are modelled by the type `IdStr`: a string handled by the
  `ObjectId` constructor either is a well-formed 24-hex object-id string
  (carrying the id value, here a `Nat`) or is not, in which case `ObjectId`
  raises `bson.errors.InvalidId`.
* python-jose JWTs are modelled symbolically: a presented bearer token is
  either a token signed over a claims record with some key and algorithm, or
  an undecodable blob; `jwt.decode` checks algorithm, key and expiry.
* An HTTP handler outcome is `HResult`: a successful value, a raised
  `HTTPException` (status code and detail), or an uncaught Python exception
  surfacing as an internal server error.

Times are unix seconds as integers.
-/

namespace ElevenClone

/-- Value stored in a password field: either raw plaintext or the salted
one-way bcrypt digest of a password. `bcrypt.hashpw` only ever produces the
digest form; the constructor is the symbolic one-way function. -/
inductive PwString where
  | plain (s : String)
  | bcryptDigest (salt : Nat) (pw : String)
deriving DecidableEq

/-- Model of `bcrypt.hashpw(password, gensalt())`: a salted one-way digest. -/
def hashpw (password : String) (salt : Nat) : PwString :=
  .bcryptDigest salt password

/-- Model of `bcrypt.checkpw(password, stored)`: recomputes with the salt
embedded in the digest and compares. -/
def checkpw (password : String) (stored : PwString) : Bool :=
  match stored with
  | .plain _ => false
  | .bcryptDigest _ pw => password == pw

/-- Model of the strings fed to the bson `ObjectId` constructor: a string
either is a well-formed 24-character hex object-id string (carrying the id
value it denotes, modelled as a `Nat`) or is not well-formed. -/
inductive IdStr where
  | wellFormed (n : Nat)
  | malformed (s : String)
deriving DecidableEq

/-- Rendering of an id string back to a plain string (`str(object_id)`). -/
def renderIdStr : IdStr → String
  | .wellFormed n => "oid-" ++ toString n
  | .malformed s => s

/-- Model of `bson.ObjectId(s)`: succeeds on a well-formed object-id string,
raises `bson.errors.InvalidId` otherwise. -/
def bson_ObjectId : IdStr → Except String Nat
  | .wellFormed n => .ok n
  | .malformed _ => .error "bson.errors.InvalidId"

/-- JWT claims as produced and consumed by src/main.py: an optional subject
(the `sub` claim, a string when present) and an absolute expiry time. -/
structure JwtClaims where
  sub : Option IdStr
  exp : Int
deriving DecidableEq

/-- A presented bearer token: either a payload signed with some key under
some algorithm, or a blob that does not decode as a JWT at all. -/
inductive Jwt where
  | signed (claims : JwtClaims) (key : String) (alg : String)
  | malformed (raw : String)
deriving DecidableEq

/-- Failure modes of `jose.jwt.decode`, all raised as `JWTError`. -/
inductive JWTError where
  | invalidAlgorithm
  | invalidSignature
  | expired
  | malformedToken
deriving DecidableEq

/-- `JWT_ALGORITHM`: default value from src/main.py line 21. -/
def JWT_ALGORITHM : String := "HS256"

/-- `JWT_ACCESS_TOKEN_EXPIRE_MINUTES`: default value from src/main.py
line 22. -/
def JWT_ACCESS_TOKEN_EXPIRE_MINUTES : Int := 30

/-- The input dict given to `create_access_token` (in src/main.py it is
always of the shape `{"sub": ...}`). -/
structure TokenData where
  sub : Option IdStr
deriving DecidableEq

/-- Model of `create_access_token` (src/main.py lines 104..112).
`expires_delta` is the requested ttl in seconds when supplied. The Python
guard `if expires_delta:` is truthiness: a zero timedelta is falsy, so a
supplied ttl of zero falls through to the default-expiry branch. -/
def create_access_token (data : TokenData) (expires_delta : Option Int)
    (now : Int) (secret : String) : Jwt :=
  let expire : Int :=
    match expires_delta with
    | some d =>
        if d ≠ 0 then now + d
        else now + 60 * JWT_ACCESS_TOKEN_EXPIRE_MINUTES
    | none => now + 60 * JWT_ACCESS_TOKEN_EXPIRE_MINUTES
  .signed { sub := data.sub, exp := expire } secret JWT_ALGORITHM

/-- Model of `jose.jwt.decode(token, key, algorithms=[JWT_ALGORITHM])` at
time `now`: structure, algorithm and signature checks, then the `exp` claim
check (jose rejects exactly when `exp < now`, leeway zero). -/
def jwt_decode (token : Jwt) (key : String) (now : Int) :
    Except JWTError JwtClaims :=
  match token with
  | .malformed _ => .error .malformedToken
  | .signed claims k alg =>
      if alg ≠ JWT_ALGORITHM then .error .invalidAlgorithm
      else if k ≠ key then .error .invalidSignature
      else if claims.exp < now then .error .expired
      else .ok claims

/-- Outcome of a handler: a value, a raised `HTTPException`, or an uncaught
Python exception surfacing as an HTTP 500 internal server error. -/
inductive HResult (α : Type) where
  | ok (val : α)
  | httpError (status : Nat) (detail : String)
  | internalError (msg : String)
deriving DecidableEq

/-- A document of the `users` collection as written by signup. -/
structure UserDoc where
  _id : Nat
  email : String
  name : String
  password : PwString
  createdAt : Int
deriving DecidableEq

/-- The `users` collection: insertion-ordered documents plus the next
store-assigned object id. -/
structure UsersDB where
  docs : List UserDoc
  nextId : Nat
deriving DecidableEq

/-- Model of `db.users.insert_one`: the unique index on `email` created in
src/setup_database.py line 42 makes the insert raise a duplicate-key error
when a document with the same email already exists; otherwise the document
is appended with a fresh store-assigned id. -/
def users_insert_one (db : UsersDB) (email name : String) (pw : PwString)
    (now : Int) : Except String (Nat × UsersDB) :=
  if db.docs.any (fun d => d.email == email) then
    .error "E11000 duplicate key error"
  else
    .ok (db.nextId,
         ⟨db.docs ++ [⟨db.nextId, email, name, pw, now⟩], db.nextId + 1⟩)

/-- Request body of POST /api/auth/signup. -/
structure UserSignup where
  email : String
  password : String
  name : String
deriving DecidableEq

/-- Request body of POST /api/auth/login. -/
structure UserLogin where
  email : String
  password : String
deriving DecidableEq

/-- The signup response dict `{"message": ..., "userId": ...}`. -/
structure SignupResponse where
  message : String
  userId : IdStr
deriving DecidableEq

/-- JSON serialization of the signup response: its exact key-value pairs. -/
def SignupResponse.serialize (r : SignupResponse) : List (String × String) :=
  [("message", r.message), ("userId", renderIdStr r.userId)]

/-- The `Token` response model of POST /api/auth/login. -/
structure TokenResponse where
  access_token : Jwt
  token_type : String
  user_id : IdStr
  name : String
  email : String
deriving DecidableEq

/-- Compact rendering of a token as it appears in a JSON response. -/
def renderJwt : Jwt → String
  | .signed c k a =>
      "jwt:" ++ a ++ ":" ++
        (match c.sub with
         | none => "-"
         | some s => renderIdStr s) ++
        ":" ++ toString c.exp ++ ":hmac:" ++ k
  | .malformed raw => raw

/-- JSON serialization of the login response: the exact key-value pairs of
the pydantic `Token` model. -/
def TokenResponse.serialize (t : TokenResponse) : List (String × String) :=
  [("access_token", renderJwt t.access_token),
   ("token_type", t.token_type),
   ("user_id", renderIdStr t.user_id),
   ("name", t.name),
   ("email", t.email)]

/-- Model of the `signup` handler (src/main.py lines 203..220): existence
check by email, bcrypt hash, insert, response with the new id and no
token. `salt` is the fresh salt drawn by `bcrypt.gensalt()`, `now` the
current time. -/
def signup (user : UserSignup) (db : UsersDB) (salt : Nat) (now : Int) :
    HResult SignupResponse × UsersDB :=
  match db.docs.find? (fun d => d.email == user.email) with
  | some _ => (.httpError 400 "User already exists", db)
  | none =>
      match users_insert_one db user.email user.name
          (hashpw user.password salt) now with
      | .error e => (.internalError e, db)
      | .ok (newId, db') =>
          (.ok ⟨"User created successfully", .wellFormed newId⟩, db')

/-- Model of the `login` handler (src/main.py lines 222..243): lookup by
email, digest check, token issuance with the configured expiry. -/
def login (user : UserLogin) (db : UsersDB) (now : Int) (secret : String) :
    HResult TokenResponse :=
  match db.docs.find? (fun d => d.email == user.email) with
  | none => .httpError 401 "Invalid email or password"
  | some doc =>
      if checkpw user.password doc.password then
        let tok := create_access_token ⟨some (.wellFormed doc._id)⟩
          (some (60 * JWT_ACCESS_TOKEN_EXPIRE_MINUTES)) now secret
        .ok ⟨tok, "bearer", .wellFormed doc._id, doc.name, doc.email⟩
      else .httpError 401 "Invalid email or password"

/-- Model of `get_current_user` (src/main.py lines 114..132): decode the
bearer token, require a `sub` claim, convert it with `ObjectId` (an
ill-formed subject raises outside the try block and escapes as a 500),
look the user up by id. All handled failures raise the one
`credentials_exception`. -/
def get_current_user (token : Jwt) (db : UsersDB) (now : Int)
    (secret : String) : HResult UserDoc :=
  match jwt_decode token secret now with
  | .error _ => .httpError 401 "Could not validate credentials"
  | .ok payload =>
      match payload.sub with
      | none => .httpError 401 "Could not validate credentials"
      | some uid =>
          match bson_ObjectId uid with
          | .error e => .internalError e
          | .ok oid =>
              match db.docs.find? (fun d => d._id == oid) with
              | none => .httpError 401 "Could not validate credentials"
              | some u => .ok u

/-- A document of the `audio_urls` collection; `createdAt` and `updatedAt`
are optional because the handler reads them with `doc.get(key, "")`. -/
structure AudioDoc where
  language : String
  url : String
  createdAt : Option String
  updatedAt : Option String
deriving DecidableEq

/-- The `AudioResponse` model of GET /api/audio. -/
structure AudioResponse where
  language : String
  audioUrl : String
  createdAt : String
  updatedAt : String
deriving DecidableEq

/-- Model of Python `str.lower()` (ASCII letters, the range relevant to the
language keys of this service). -/
def pyLower (s : String) : String :=
  ⟨s.data.map Char.toLower⟩

/-- Model of the `get_audio_url` handler (src/main.py lines 148..160):
lookup by `lang.lower()`, 404 when absent, optional timestamps defaulted
to the empty string. -/
def get_audio_url (db : List AudioDoc) (lang : String) :
    HResult AudioResponse :=
  match db.find? (fun d => d.language == pyLower lang) with
  | none =>
      .httpError 404 ("Audio URL not found for language: " ++ lang)
  | some doc =>
      .ok ⟨doc.language, doc.url, doc.createdAt.getD "", doc.updatedAt.getD ""⟩

/-- The `personalDetails` sub-document of an onboarding profile. -/
structure PersonalDetails where
  name : String
  age : Int
  email : String
deriving DecidableEq

/-- Request body of POST /api/onboarding. -/
structure OnboardingData where
  theme : String
  personalDetails : PersonalDetails
  referralSource : String
  persona : String
  pricingPlan : String
deriving DecidableEq

/-- A document of the `onboarding_profiles` collection. -/
structure OnboardingDoc where
  _id : Nat
  theme : String
  personalDetails : PersonalDetails
  referralSource : String
  persona : String
  pricingPlan : String
  createdAt : String
  updatedAt : String
deriving DecidableEq

/-- The `onboarding_profiles` collection. -/
structure OnboardingDB where
  docs : List OnboardingDoc
  nextId : Nat
deriving DecidableEq

/-- Response model of POST /api/onboarding. -/
structure OnboardingResponse where
  message : String
  userId : IdStr
  status : String
deriving DecidableEq

/-- Model of `create_onboarding_profile` (src/main.py lines 165..188):
build the document and insert it. The unique index on
`personalDetails.email` from src/setup_database.py line 37 makes the
insert raise a duplicate-key error on a repeated personal email; the
handler does not catch it. `now` is the isoformat timestamp string. -/
def create_onboarding_profile (data : OnboardingData) (db : OnboardingDB)
    (now : String) : HResult OnboardingResponse × OnboardingDB :=
  if db.docs.any
      (fun d => d.personalDetails.email == data.personalDetails.email) then
    (.internalError "E11000 duplicate key error", db)
  else
    let doc : OnboardingDoc :=
      ⟨db.nextId, data.theme, data.personalDetails, data.referralSource,
       data.persona, data.pricingPlan, now, now⟩
    (.ok ⟨"Onboarding profile created successfully",
          .wellFormed db.nextId, "success"⟩,
     ⟨db.docs ++ [doc], db.nextId + 1⟩)

/-- Model of `get_onboarding_profile` (src/main.py lines 190..198): the
path id goes through `ObjectId` (an ill-formed id raises and escapes as a
500), then a lookup with 404 when absent. -/
def get_onboarding_profile (user_id : IdStr) (db : OnboardingDB) :
    HResult OnboardingDoc :=
  match bson_ObjectId user_id with
  | .error e => .internalError e
  | .ok oid =>
      match db.docs.find? (fun d => d._id == oid) with
      | none => .httpError 404 "Profile not found"
      | some p => .ok p

/-- Progress of one in-flight signup request: before its existence check,
past the check (which found no duplicate) and about to insert, or finished
with a response. A check that finds a duplicate finishes immediately. -/
inductive SignupPhase where
  | toCheck
  | toInsert
  | finished (result : HResult SignupResponse)
deriving DecidableEq

/-- One in-flight signup request with its drawn salt. -/
structure SignupReq where
  user : UserSignup
  salt : Nat
  phase : SignupPhase
deriving DecidableEq

/-- One atomic store operation of a signup request: its `find_one`
existence check or its `insert_one`. These are the only suspension points
of the handler, so interleavings of two requests interleave these steps. -/
def signupStep (db : UsersDB) (now : Int) (r : SignupReq) :
    SignupReq × UsersDB :=
  match r.phase with
  | .toCheck =>
      match db.docs.find? (fun d => d.email == r.user.email) with
      | some _ =>
          ({ r with phase := .finished (.httpError 400 "User already exists") },
           db)
      | none => ({ r with phase := .toInsert }, db)
  | .toInsert =>
      match users_insert_one db r.user.email r.user.name
          (hashpw r.user.password r.salt) now with
      | .error e => ({ r with phase := .finished (.internalError e) }, db)
      | .ok (newId, db') =>
          ({ r with phase :=
              .finished (.ok ⟨"User created successfully", .wellFormed newId⟩) },
           db')
  | .finished _ => (r, db)

/-- Two concurrent signup requests over one shared users collection. -/
structure RaceState where
  reqA : SignupReq
  reqB : SignupReq
  db : UsersDB
deriving DecidableEq

/-- One scheduling step: `false` runs the next store operation of request
A, `true` of request B. A finished request leaves the state unchanged. -/
def raceStep (now : Int) (st : RaceState) (pickB : Bool) : RaceState :=
  if pickB then
    let p := signupStep st.db now st.reqB
    { st with reqB := p.1, db := p.2 }
  else
    let p := signupStep st.db now st.reqA
    { st with reqA := p.1, db := p.2 }

/-- Run a schedule of steps over the race state. -/
def runRace (now : Int) (sched : List Bool) (st : RaceState) : RaceState :=
  sched.foldl (raceStep now) st

/-- All interleavings of the two store operations of request A with the two
of request B (for each request the check precedes the insert). -/
def signupInterleavings : List (List Bool) :=
  [[false, false, true, true],
   [false, true, false, true],
   [false, true, true, false],
   [true, false, false, true],
   [true, false, true, false],
   [true, true, false, false]]

/-- Initial race state for two signup requests over a store. -/
def raceInit (uA uB : UserSignup) (saltA saltB : Nat) (db : UsersDB) :
    RaceState :=
  ⟨⟨uA, saltA, .toCheck⟩, ⟨uB, saltB, .toCheck⟩, db⟩

/-- A failed signup outcome in the race: either the handled 400 duplicate
response or the uncaught store-level duplicate-key error. -/
def isDupFailure (r : HResult SignupResponse) : Prop :=
  r = .httpError 400 "User already exists" ∨
  r = .internalError "E11000 duplicate key error"

/-- Unfolding of core `Char.toLower`. -/
theorem char_toLower_eq (c : Char) :
    c.toLower = if c.toNat ≥ 65 ∧ c.toNat ≤ 90 then Char.ofNat (c.toNat + 32)
      else c := rfl

/-- Decoding a valid codepoint round-trips through `Char.ofNat`. -/
theorem char_ofNat_toNat_valid {n : Nat} (h : n.isValidChar) :
    (Char.ofNat n).toNat = n := by
  unfold Char.ofNat
  rw [dif_pos h]
  rfl

/-- Lowercasing a character is idempotent. -/
theorem char_toLower_toLower (c : Char) : c.toLower.toLower = c.toLower := by
  by_cases h : c.toNat ≥ 65 ∧ c.toNat ≤ 90
  · have h1 : c.toLower = Char.ofNat (c.toNat + 32) := by
      rw [char_toLower_eq, if_pos h]
    have hv : Nat.isValidChar (c.toNat + 32) := Or.inl (by omega)
    have h2 : c.toLower.toNat = c.toNat + 32 := by
      rw [h1, char_ofNat_toNat_valid hv]
    have h3 : ¬(c.toLower.toNat ≥ 65 ∧ c.toLower.toNat ≤ 90) := by
      rw [h2]; omega
    rw [char_toLower_eq c.toLower, if_neg h3]
  · have h1 : c.toLower = c := by rw [char_toLower_eq, if_neg h]
    rw [h1]
    exact h1

/-- The model of Python `str.lower()` is idempotent. -/
theorem pyLower_idem (s : String) : pyLower (pyLower s) = pyLower s := by
  unfold pyLower
  apply congrArg String.mk
  show (s.data.map Char.toLower).map Char.toLower = s.data.map Char.toLower
  rw [List.map_map]
  exact List.map_congr_left (fun c _ => char_toLower_toLower c)

/-- An email absent from every stored document makes the lookup miss. -/
theorem find_email_none {l : List UserDoc} {e : String}
    (h : ∀ d ∈ l, d.email ≠ e) :
    l.find? (fun d => d.email == e) = none := by
  rw [List.find?_eq_none]
  intro x hx
  simpa using h x hx

/-- An email absent from every stored document makes the any-check false. -/
theorem any_email_false {l : List UserDoc} {e : String}
    (h : ∀ d ∈ l, d.email ≠ e) :
    l.any (fun d => d.email == e) = false := by
  rw [List.any_eq_false]
  intro x hx
  simpa using h x hx

/-- C3: login with an email that matches no stored user and login with a
stored email whose password fails digest verification both fail with the
same 401 outcome carrying the same generic message, so the two failure
cases are indistinguishable to the caller. -/
theorem login_failures_indistinguishable
    (db1 db2 : UsersDB) (u1 u2 : UserLogin) (t1 t2 : Int) (s1 s2 : String)
    (doc : UserDoc)
    (h1 : ∀ d ∈ db1.docs, d.email ≠ u1.email)
    (h2 : db2.docs.find? (fun d => d.email == u2.email) = some doc)
    (h3 : checkpw u2.password doc.password = false) :
    login u1 db1 t1 s1 = .httpError 401 "Invalid email or password" ∧
    login u2 db2 t2 s2 = .httpError 401 "Invalid email or password" ∧
    login u1 db1 t1 s1 = login u2 db2 t2 s2 := by
  have hf := find_email_none h1
  refine ⟨?_, ?_, ?_⟩
  · simp [login, hf]
  · simp [login, h2, h3]
  · simp [login, hf, h2, h3]

/-- C3 witness: a concrete unknown-email login and a concrete
wrong-password login produce the identical 401 response. -/
theorem login_failures_indistinguishable_witness :
    login ⟨"ghost@x.co", "pw"⟩ ⟨[], 0⟩ 0 "sec" =
      .httpError 401 "Invalid email or password" ∧
    login ⟨"a@b.co", "wrong"⟩
        ⟨[⟨0, "a@b.co", "n", .bcryptDigest 1 "right", 0⟩], 1⟩ 0 "sec" =
      .httpError 401 "Invalid email or password" ∧
    login ⟨"ghost@x.co", "pw"⟩ ⟨[], 0⟩ 0 "sec" =
      login ⟨"a@b.co", "wrong"⟩
        ⟨[⟨0, "a@b.co", "n", .bcryptDigest 1 "right", 0⟩], 1⟩ 0 "sec" :=
  login_failures_indistinguishable
    ⟨[], 0⟩ ⟨[⟨0, "a@b.co", "n", .bcryptDigest 1 "right", 0⟩], 1⟩
    ⟨"ghost@x.co", "pw"⟩ ⟨"a@b.co", "wrong"⟩ 0 0 "sec" "sec"
    ⟨0, "a@b.co", "n", .bcryptDigest 1 "right", 0⟩
    (by intro d hd; simp at hd)
    (by decide) (by decide)

/-- C4: signup with an already-stored email fails with the 400 duplicate
outcome and inserts nothing; otherwise it hashes the password, inserts
exactly one new record, and returns the new identifier; the signup
response consists of a message and the user id only, with no token. -/
theorem signup_duplicate_or_insert
    (db : UsersDB) (u : UserSignup) (salt : Nat) (now : Int) :
    ((∃ d, d ∈ db.docs ∧ d.email = u.email) →
      signup u db salt now = (.httpError 400 "User already exists", db)) ∧
    ((∀ d ∈ db.docs, d.email ≠ u.email) →
      signup u db salt now =
        (.ok ⟨"User created successfully", .wellFormed db.nextId⟩,
         ⟨db.docs ++
            [⟨db.nextId, u.email, u.name, hashpw u.password salt, now⟩],
          db.nextId + 1⟩)) ∧
    (∀ r : SignupResponse,
      r.serialize.map Prod.fst = ["message", "userId"] ∧
      "access_token" ∉ r.serialize.map Prod.fst) := by
  refine ⟨?_, ?_, ?_⟩
  · rintro ⟨d, hd, he⟩
    have hs : ∃ x, db.docs.find? (fun d => d.email == u.email) = some x := by
      rw [← Option.isSome_iff_exists, List.find?_isSome]
      exact ⟨d, hd, by simp [he]⟩
    obtain ⟨x, hx⟩ := hs
    simp [signup, hx]
  · intro h
    simp [signup, users_insert_one, find_email_none h, any_email_false h]
  · intro r
    constructor
    · rfl
    · simp [SignupResponse.serialize]

/-- C4 witness: a duplicate signup against a concrete store returns the
400 outcome and leaves the store unchanged. -/
theorem signup_duplicate_or_insert_witness :
    (∃ d, d ∈ ([⟨0, "a@b.co", "n", .bcryptDigest 1 "p", 0⟩] : List UserDoc) ∧
      d.email = "a@b.co") ∧
    signup ⟨"a@b.co", "pw", "nm"⟩
        ⟨[⟨0, "a@b.co", "n", .bcryptDigest 1 "p", 0⟩], 1⟩ 2 5 =
      (.httpError 400 "User already exists",
       ⟨[⟨0, "a@b.co", "n", .bcryptDigest 1 "p", 0⟩], 1⟩) :=
  ⟨⟨⟨0, "a@b.co", "n", .bcryptDigest 1 "p", 0⟩, by simp, rfl⟩,
   (signup_duplicate_or_insert
      ⟨[⟨0, "a@b.co", "n", .bcryptDigest 1 "p", 0⟩], 1⟩
      ⟨"a@b.co", "pw", "nm"⟩ 2 5).1
     ⟨⟨0, "a@b.co", "n", .bcryptDigest 1 "p", 0⟩, by simp, rfl⟩⟩

/-- C1: for a valid signup whose email is not yet stored, signup followed
by login with the same credentials succeeds, and the access token returned
by login, presented to the session authenticator while still valid,
resolves to the same user id that signup returned. -/
theorem signup_login_token_roundtrip
    (db : UsersDB) (email password name secret : String) (salt : Nat)
    (t0 t1 t2 : Int)
    (hfresh : ∀ d ∈ db.docs, d.email ≠ email)
    (hids : ∀ d ∈ db.docs, d._id ≠ db.nextId)
    (hvalid : t2 ≤ t1 + 60 * JWT_ACCESS_TOKEN_EXPIRE_MINUTES) :
    ∃ (uid : Nat) (db' : UsersDB) (resp : TokenResponse) (u : UserDoc),
      signup ⟨email, password, name⟩ db salt t0 =
        (.ok ⟨"User created successfully", .wellFormed uid⟩, db') ∧
      login ⟨email, password⟩ db' t1 secret = .ok resp ∧
      resp.user_id = .wellFormed uid ∧
      get_current_user resp.access_token db' t2 secret = .ok u ∧
      u._id = uid := by
  have hf := find_email_none hfresh
  have ha := any_email_false hfresh
  have hfid : db.docs.find? (fun d => d._id == db.nextId) = none := by
    rw [List.find?_eq_none]
    intro x hx
    simpa using hids x hx
  have hne : (60 * JWT_ACCESS_TOKEN_EXPIRE_MINUTES : Int) ≠ 0 := by decide
  have hnl : ¬ (t1 + 60 * JWT_ACCESS_TOKEN_EXPIRE_MINUTES < t2) :=
    not_lt.mpr hvalid
  refine ⟨db.nextId,
    ⟨db.docs ++ [⟨db.nextId, email, name, hashpw password salt, t0⟩],
     db.nextId + 1⟩,
    ⟨Jwt.signed
       ⟨some (.wellFormed db.nextId),
        t1 + 60 * JWT_ACCESS_TOKEN_EXPIRE_MINUTES⟩ secret JWT_ALGORITHM,
     "bearer", .wellFormed db.nextId, name, email⟩,
    ⟨db.nextId, email, name, hashpw password salt, t0⟩, ?_, ?_, rfl, ?_, rfl⟩
  · simp [signup, users_insert_one, hf, ha]
  · simp [login, List.find?_append, hf, checkpw, hashpw,
      create_access_token, hne]
  · simp [get_current_user, jwt_decode, bson_ObjectId, hnl,
      List.find?_append, hfid]

/-- C1 witness: the roundtrip instantiated on an empty store with concrete
credentials and times. -/
theorem signup_login_token_roundtrip_witness :
    ((0 : Int) ≤ 0 + 60 * JWT_ACCESS_TOKEN_EXPIRE_MINUTES) ∧
    (∃ (uid : Nat) (db' : UsersDB) (resp : TokenResponse) (u : UserDoc),
      signup ⟨"a@b.co", "pw", "nm"⟩ ⟨[], 0⟩ 3 0 =
        (.ok ⟨"User created successfully", .wellFormed uid⟩, db') ∧
      login ⟨"a@b.co", "pw"⟩ db' 0 "sec" = .ok resp ∧
      resp.user_id = .wellFormed uid ∧
      get_current_user resp.access_token db' 0 "sec" = .ok u ∧
      u._id = uid) :=
  ⟨by decide,
   signup_login_token_roundtrip ⟨[], 0⟩ "a@b.co" "pw" "nm" "sec" 3 0 0 0
     (by intro d hd; simp at hd) (by intro d hd; simp at hd) (by decide)⟩

/-- C5: the record persisted by signup stores only the salted bcrypt
digest and never the plaintext password, and the login response
serializes exactly the fields access_token, token_type, user_id, name and
email, never a password field. -/
theorem credential_secrecy
    (db : UsersDB) (u : UserSignup) (salt : Nat) (now : Int)
    (lu : UserLogin) (t : Int) (secret : String) :
    ((∀ d ∈ db.docs, d.email ≠ u.email) →
      ∃ doc : UserDoc,
        (signup u db salt now).2.docs = db.docs ++ [doc] ∧
        doc.password = hashpw u.password salt ∧
        ∀ s : String, doc.password ≠ .plain s) ∧
    (∀ resp : TokenResponse, login lu db t secret = .ok resp →
      resp.serialize.map Prod.fst =
        ["access_token", "token_type", "user_id", "name", "email"] ∧
      "password" ∉ resp.serialize.map Prod.fst) := by
  constructor
  · intro h
    refine ⟨⟨db.nextId, u.email, u.name, hashpw u.password salt, now⟩,
      ?_, rfl, ?_⟩
    · simp [signup, users_insert_one, find_email_none h, any_email_false h]
    · intro s
      simp [hashpw]
  · intro resp _
    constructor
    · rfl
    · simp [TokenResponse.serialize]

/-- C5 witness: secrecy instantiated on an empty store for signup and a
one-user store for a successful login. -/
theorem credential_secrecy_witness :
    (∃ doc : UserDoc,
      (signup ⟨"a@b.co", "pw", "nm"⟩ ⟨[], 0⟩ 3 0).2.docs = [] ++ [doc] ∧
      doc.password = hashpw "pw" 3 ∧
      ∀ s : String, doc.password ≠ .plain s) ∧
    ((⟨Jwt.signed ⟨some (.wellFormed 0), 1800⟩ "sec" "HS256", "bearer",
        .wellFormed 0, "n", "a@b.co"⟩ : TokenResponse).serialize.map
          Prod.fst =
        ["access_token", "token_type", "user_id", "name", "email"] ∧
      "password" ∉
        (⟨Jwt.signed ⟨some (.wellFormed 0), 1800⟩ "sec" "HS256", "bearer",
          .wellFormed 0, "n", "a@b.co"⟩ : TokenResponse).serialize.map
            Prod.fst) :=
  ⟨(credential_secrecy ⟨[], 0⟩ ⟨"a@b.co", "pw", "nm"⟩ 3 0
      ⟨"a@b.co", "pw"⟩ 0 "sec").1 (by intro d hd; simp at hd),
   (credential_secrecy
      ⟨[⟨0, "a@b.co", "n", .bcryptDigest 1 "pw", 0⟩], 1⟩
      ⟨"a@b.co", "pw", "nm"⟩ 3 0 ⟨"a@b.co", "pw"⟩ 0 "sec").2
     ⟨Jwt.signed ⟨some (.wellFormed 0), 1800⟩ "sec" "HS256", "bearer",
      .wellFormed 0, "n", "a@b.co"⟩ (by decide)⟩

/-- C6 counterexample: a requested ttl of zero does not produce an expiry
of now plus the requested ttl; the falsy timedelta falls back to the
default 30 minutes. -/
theorem create_access_token_zero_ttl_cex :
    create_access_token ⟨some (.wellFormed 7)⟩ (some 0) 1000 "sec" =
      .signed ⟨some (.wellFormed 7), 1000 + 60 * 30⟩ "sec" "HS256" ∧
    (1000 + 60 * 30 : Int) ≠ 1000 + 0 := by
  constructor
  · decide
  · decide

/-- C6 amended: the token issuer encodes the subject and an expiry of now
plus the requested ttl for every nonzero ttl, signed with the server
secret under HS256; when the ttl is unsupplied, and also when the
supplied ttl is zero (a falsy timedelta), the expiry is now plus the
default 30 minutes. -/
theorem create_access_token_spec
    (data : TokenData) (now : Int) (secret : String) :
    (∀ d : Int, d ≠ 0 →
      create_access_token data (some d) now secret =
        .signed ⟨data.sub, now + d⟩ secret "HS256") ∧
    (create_access_token data none now secret =
      .signed ⟨data.sub, now + 60 * 30⟩ secret "HS256") ∧
    (create_access_token data (some 0) now secret =
      .signed ⟨data.sub, now + 60 * 30⟩ secret "HS256") := by
  refine ⟨?_, ?_, ?_⟩
  · intro d hd
    simp [create_access_token, hd, JWT_ALGORITHM]
  · simp [create_access_token, JWT_ALGORITHM,
      JWT_ACCESS_TOKEN_EXPIRE_MINUTES]
  · simp [create_access_token, JWT_ALGORITHM,
      JWT_ACCESS_TOKEN_EXPIRE_MINUTES]

/-- C6 witness: a nonzero ttl of five seconds yields an expiry of now plus
five. -/
theorem create_access_token_spec_witness :
    ((5 : Int) ≠ 0) ∧
    create_access_token ⟨some (.wellFormed 1)⟩ (some 5) 100 "sec" =
      .signed ⟨some (.wellFormed 1), 100 + 5⟩ "sec" "HS256" :=
  ⟨by decide,
   (create_access_token_spec ⟨some (.wellFormed 1)⟩ 100 "sec").1 5
     (by decide)⟩

/-- C2 counterexample: a correctly signed, unexpired token whose subject
is not a well-formed object-id string makes the session authenticator
raise an uncaught invalid-id error (an HTTP 500), not the generic 401. -/
theorem get_current_user_invalid_oid_cex :
    get_current_user
        (.signed ⟨some (.malformed "not-an-objectid"), 100⟩ "sec" "HS256")
        ⟨[], 0⟩ 0 "sec" =
      .internalError "bson.errors.InvalidId" ∧
    (HResult.internalError "bson.errors.InvalidId" : HResult UserDoc) ≠
      .httpError 401 "Could not validate credentials" := by
  constructor
  · decide
  · decide

/-- C2 amended: a signature that does not match the server secret, a past
expiry, an undecodable token, a missing subject claim, and a well-formed
subject id matching no stored user are all surfaced as one and the same
generic 401 outcome; only a subject that is not a well-formed object-id
string escapes instead as an uncaught invalid-id error. -/
theorem get_current_user_rejections
    (db : UsersDB) (now : Int) (secret : String) :
    (∀ (claims : JwtClaims) (key alg : String), key ≠ secret →
      get_current_user (.signed claims key alg) db now secret =
        .httpError 401 "Could not validate credentials") ∧
    (∀ claims : JwtClaims, claims.exp < now →
      get_current_user (.signed claims secret JWT_ALGORITHM) db now secret =
        .httpError 401 "Could not validate credentials") ∧
    (∀ raw : String,
      get_current_user (.malformed raw) db now secret =
        .httpError 401 "Could not validate credentials") ∧
    (∀ exp : Int, ¬ exp < now →
      get_current_user (.signed ⟨none, exp⟩ secret JWT_ALGORITHM)
          db now secret =
        .httpError 401 "Could not validate credentials") ∧
    (∀ (exp : Int) (n : Nat), ¬ exp < now →
      db.docs.find? (fun d => d._id == n) = none →
      get_current_user
          (.signed ⟨some (.wellFormed n), exp⟩ secret JWT_ALGORITHM)
          db now secret =
        .httpError 401 "Could not validate credentials") := by
  refine ⟨?_, ?_, ?_, ?_, ?_⟩
  · intro claims key alg hk
    by_cases halg : alg = JWT_ALGORITHM
    · subst halg
      by_cases he : claims.exp < now <;>
        simp [get_current_user, jwt_decode, hk, he]
    · simp [get_current_user, jwt_decode, halg]
  · intro claims he
    simp [get_current_user, jwt_decode, he]
  · intro raw
    simp [get_current_user, jwt_decode]
  · intro exp he
    simp [get_current_user, jwt_decode, he]
  · intro exp n he hfind
    simp [get_current_user, jwt_decode, bson_ObjectId, he, hfind]

/-- C2 witness: a wrong-signature token and an undecodable token both get
the concrete generic 401. -/
theorem get_current_user_rejections_witness :
    (("badkey" : String) ≠ "sec") ∧
    get_current_user (.signed ⟨some (.wellFormed 0), 100⟩ "badkey" "HS256")
        ⟨[], 0⟩ 0 "sec" =
      .httpError 401 "Could not validate credentials" ∧
    get_current_user (.malformed "garbage") ⟨[], 0⟩ 0 "sec" =
      .httpError 401 "Could not validate credentials" :=
  ⟨by decide,
   (get_current_user_rejections ⟨[], 0⟩ 0 "sec").1
     ⟨some (.wellFormed 0), 100⟩ "badkey" "HS256" (by decide),
   (get_current_user_rejections ⟨[], 0⟩ 0 "sec").2.2.1 "garbage"⟩

/-- C7 counterexample: when both existence checks run before both inserts,
one request succeeds and the other fails with the uncaught store-level
duplicate-key error, not with the 400 duplicate-email outcome. -/
theorem signup_race_dup_key_cex :
    (runRace 0 [false, true, false, true]
       (raceInit ⟨"e@x.co", "p1", "n1"⟩ ⟨"e@x.co", "p2", "n2"⟩ 1 2
         ⟨[], 0⟩)).reqA.phase =
      .finished (.ok ⟨"User created successfully", .wellFormed 0⟩) ∧
    (runRace 0 [false, true, false, true]
       (raceInit ⟨"e@x.co", "p1", "n1"⟩ ⟨"e@x.co", "p2", "n2"⟩ 1 2
         ⟨[], 0⟩)).reqB.phase =
      .finished (.internalError "E11000 duplicate key error") ∧
    (HResult.internalError "E11000 duplicate key error" :
        HResult SignupResponse) ≠
      .httpError 400 "User already exists" := by
  refine ⟨?_, ?_, ?_⟩
  · decide
  · decide
  · decide

/-- C7 amended: in every interleaving of two concurrent signups with the
same fresh email, exactly one request succeeds and exactly one document
is inserted (the store-level unique index closes the race); the losing
request fails with the 400 duplicate-email outcome when its existence
check runs after the winning insert, and with the uncaught store-level
duplicate-key error when both checks precede the inserts. -/
theorem signup_race_unique
    (db : UsersDB) (uA uB : UserSignup) (saltA saltB : Nat) (now : Int)
    (sched : List Bool)
    (hs : sched ∈ signupInterleavings)
    (hemail : uA.email = uB.email)
    (hfresh : ∀ d ∈ db.docs, d.email ≠ uA.email) :
    ∃ (ra rb : HResult SignupResponse),
      (runRace now sched (raceInit uA uB saltA saltB db)).reqA.phase =
        .finished ra ∧
      (runRace now sched (raceInit uA uB saltA saltB db)).reqB.phase =
        .finished rb ∧
      ((∃ v, ra = .ok v) ∧ isDupFailure rb ∨
        isDupFailure ra ∧ (∃ v, rb = .ok v)) ∧
      (runRace now sched (raceInit uA uB saltA saltB db)).db.docs.length =
        db.docs.length + 1 := by
  rcases uA with ⟨eA, pA, nA⟩
  rcases uB with ⟨eB, pB, nB⟩
  have heq : eA = eB := hemail
  subst heq
  have hf := find_email_none hfresh
  have ha := any_email_false hfresh
  fin_cases hs
  · refine ⟨.ok ⟨"User created successfully", .wellFormed db.nextId⟩,
      .httpError 400 "User already exists",
      ?_, ?_, Or.inl ⟨⟨_, rfl⟩, Or.inl rfl⟩, ?_⟩ <;>
      simp [runRace, raceInit, raceStep, signupStep, users_insert_one,
        hf, ha]
  · refine ⟨.ok ⟨"User created successfully", .wellFormed db.nextId⟩,
      .internalError "E11000 duplicate key error",
      ?_, ?_, Or.inl ⟨⟨_, rfl⟩, Or.inr rfl⟩, ?_⟩ <;>
      simp [runRace, raceInit, raceStep, signupStep, users_insert_one,
        hf, ha]
  · refine ⟨.internalError "E11000 duplicate key error",
      .ok ⟨"User created successfully", .wellFormed db.nextId⟩,
      ?_, ?_, Or.inr ⟨Or.inr rfl, ⟨_, rfl⟩⟩, ?_⟩ <;>
      simp [runRace, raceInit, raceStep, signupStep, users_insert_one,
        hf, ha]
  · refine ⟨.ok ⟨"User created successfully", .wellFormed db.nextId⟩,
      .internalError "E11000 duplicate key error",
      ?_, ?_, Or.inl ⟨⟨_, rfl⟩, Or.inr rfl⟩, ?_⟩ <;>
      simp [runRace, raceInit, raceStep, signupStep, users_insert_one,
        hf, ha]
  · refine ⟨.internalError "E11000 duplicate key error",
      .ok ⟨"User created successfully", .wellFormed db.nextId⟩,
      ?_, ?_, Or.inr ⟨Or.inr rfl, ⟨_, rfl⟩⟩, ?_⟩ <;>
      simp [runRace, raceInit, raceStep, signupStep, users_insert_one,
        hf, ha]
  · refine ⟨.httpError 400 "User already exists",
      .ok ⟨"User created successfully", .wellFormed db.nextId⟩,
      ?_, ?_, Or.inr ⟨Or.inl rfl, ⟨_, rfl⟩⟩, ?_⟩ <;>
      simp [runRace, raceInit, raceStep, signupStep, users_insert_one,
        hf, ha]

/-- C7 witness: one interleaving instantiated on an empty store with a
shared concrete email. -/
theorem signup_race_unique_witness :
    ([false, false, true, true] ∈ signupInterleavings) ∧
    (∃ (ra rb : HResult SignupResponse),
      (runRace 7 [false, false, true, true]
        (raceInit ⟨"e@x.co", "p1", "n1"⟩ ⟨"e@x.co", "p2", "n2"⟩ 1 2
          ⟨[], 0⟩)).reqA.phase = .finished ra ∧
      (runRace 7 [false, false, true, true]
        (raceInit ⟨"e@x.co", "p1", "n1"⟩ ⟨"e@x.co", "p2", "n2"⟩ 1 2
          ⟨[], 0⟩)).reqB.phase = .finished rb ∧
      ((∃ v, ra = .ok v) ∧ isDupFailure rb ∨
        isDupFailure ra ∧ (∃ v, rb = .ok v)) ∧
      (runRace 7 [false, false, true, true]
        (raceInit ⟨"e@x.co", "p1", "n1"⟩ ⟨"e@x.co", "p2", "n2"⟩ 1 2
          ⟨[], 0⟩)).db.docs.length = ([] : List UserDoc).length + 1) :=
  ⟨by decide,
   signup_race_unique ⟨[], 0⟩ ⟨"e@x.co", "p1", "n1"⟩ ⟨"e@x.co", "p2", "n2"⟩
     1 2 7 [false, false, true, true] (by decide) rfl
     (by intro d hd; simp at hd)⟩

/-- C8 counterexample: a profile id that is not a well-formed object-id
string makes the handler raise an uncaught invalid-id error (an HTTP
500), not the 404 outcome, although no profile exists for it. -/
theorem get_onboarding_invalid_id_cex :
    get_onboarding_profile (.malformed "abc") ⟨[], 0⟩ =
      .internalError "bson.errors.InvalidId" ∧
    (HResult.internalError "bson.errors.InvalidId" :
        HResult OnboardingDoc) ≠
      .httpError 404 "Profile not found" := by
  constructor
  · decide
  · decide

/-- C8 amended: a well-formed object-id string for which no profile
exists gets the 404 outcome; an id that is not a well-formed object-id
string instead escapes as an uncaught invalid-id error; and a freshly
created onboarding profile is retrievable by the id returned from
creation. -/
theorem onboarding_profile_spec
    (db : OnboardingDB) (n : Nat) (s : String) (data : OnboardingData)
    (now : String) :
    (db.docs.find? (fun d => d._id == n) = none →
      get_onboarding_profile (.wellFormed n) db =
        .httpError 404 "Profile not found") ∧
    (get_onboarding_profile (.malformed s) db =
      .internalError "bson.errors.InvalidId") ∧
    ((∀ d ∈ db.docs, d._id ≠ db.nextId) →
     (∀ d ∈ db.docs,
        d.personalDetails.email ≠ data.personalDetails.email) →
      ∃ (resp : OnboardingResponse) (db' : OnboardingDB)
        (doc : OnboardingDoc),
        create_onboarding_profile data db now = (.ok resp, db') ∧
        resp.userId = .wellFormed db.nextId ∧
        get_onboarding_profile resp.userId db' = .ok doc ∧
        doc.theme = data.theme ∧
        doc.personalDetails = data.personalDetails) := by
  refine ⟨?_, ?_, ?_⟩
  · intro h
    simp [get_onboarding_profile, bson_ObjectId, h]
  · simp [get_onboarding_profile, bson_ObjectId]
  · intro hid hem
    have ha : db.docs.any
        (fun d =>
          d.personalDetails.email == data.personalDetails.email) =
        false := by
      rw [List.any_eq_false]
      intro x hx
      simpa using hem x hx
    have hfid : db.docs.find? (fun d => d._id == db.nextId) = none := by
      rw [List.find?_eq_none]
      intro x hx
      simpa using hid x hx
    refine ⟨⟨"Onboarding profile created successfully",
        .wellFormed db.nextId, "success"⟩,
      ⟨db.docs ++
         [⟨db.nextId, data.theme, data.personalDetails,
           data.referralSource, data.persona, data.pricingPlan, now, now⟩],
       db.nextId + 1⟩,
      ⟨db.nextId, data.theme, data.personalDetails, data.referralSource,
       data.persona, data.pricingPlan, now, now⟩,
      ?_, rfl, ?_, rfl, rfl⟩
    · simp [create_onboarding_profile, ha]
    · simp [get_onboarding_profile, bson_ObjectId, List.find?_append,
        hfid]

/-- C8 witness: on an empty store a missing well-formed id gets the 404,
and a freshly created profile is retrieved by its returned id. -/
theorem onboarding_profile_spec_witness :
    (([] : List OnboardingDoc).find? (fun d => d._id == 5) = none) ∧
    get_onboarding_profile (.wellFormed 5) ⟨[], 0⟩ =
      .httpError 404 "Profile not found" ∧
    (∃ (resp : OnboardingResponse) (db' : OnboardingDB)
      (doc : OnboardingDoc),
      create_onboarding_profile
          ⟨"dark", ⟨"nm", 21, "p@q.co"⟩, "friend", "creator", "free"⟩
          ⟨[], 0⟩ "2024-01-01T00:00:00" = (.ok resp, db') ∧
      resp.userId = .wellFormed 0 ∧
      get_onboarding_profile resp.userId db' = .ok doc ∧
      doc.theme = "dark" ∧
      doc.personalDetails = ⟨"nm", 21, "p@q.co"⟩) :=
  ⟨rfl,
   (onboarding_profile_spec ⟨[], 0⟩ 5 "abc"
      ⟨"dark", ⟨"nm", 21, "p@q.co"⟩, "friend", "creator", "free"⟩
      "2024-01-01T00:00:00").1 rfl,
   (onboarding_profile_spec ⟨[], 0⟩ 5 "abc"
      ⟨"dark", ⟨"nm", 21, "p@q.co"⟩, "friend", "creator", "free"⟩
      "2024-01-01T00:00:00").2.2
     (by intro d hd; simp at hd) (by intro d hd; simp at hd)⟩

/-- C9 counterexample: signing up with an email and logging in with the
same email in different letter case fails: the two spellings denote
different users, so emails are not case-normalized. -/
theorem email_case_sensitivity_cex :
    (signup ⟨"Alice@example.com", "pw", "Alice"⟩ ⟨[], 0⟩ 1 0).1 =
      .ok ⟨"User created successfully", .wellFormed 0⟩ ∧
    login ⟨"alice@example.com", "pw"⟩
        (signup ⟨"Alice@example.com", "pw", "Alice"⟩ ⟨[], 0⟩ 1 0).2
        0 "sec" =
      .httpError 401 "Invalid email or password" := by
  constructor
  · decide
  · decide

/-- C9 amended: emails are not case-normalized: signup stores the email
exactly as supplied and login matches the stored email by exact string
equality, so email inputs differing in letter case denote different
users. -/
theorem email_exact_match
    (db : UsersDB) (u : UserSignup) (lu : UserLogin) (salt : Nat)
    (now t : Int) (secret : String) :
    ((∀ d ∈ db.docs, d.email ≠ u.email) →
      ∃ doc : UserDoc,
        (signup u db salt now).2.docs = db.docs ++ [doc] ∧
        doc.email = u.email) ∧
    (∀ resp : TokenResponse, login lu db t secret = .ok resp →
      ∃ doc : UserDoc, doc ∈ db.docs ∧ doc.email = lu.email ∧
        resp.email = doc.email) := by
  constructor
  · intro h
    exact ⟨⟨db.nextId, u.email, u.name, hashpw u.password salt, now⟩,
      by simp [signup, users_insert_one, find_email_none h,
        any_email_false h],
      rfl⟩
  · intro resp hr
    rcases hfind : db.docs.find? (fun d => d.email == lu.email) with _ | doc
    · simp [login, hfind] at hr
    · have hmem := List.mem_of_find?_eq_some hfind
      have hpe : doc.email = lu.email := by
        simpa using List.find?_some hfind
      by_cases hc : checkpw lu.password doc.password
      · simp [login, hfind, hc] at hr
        exact ⟨doc, hmem, hpe, by rw [← hr]⟩
      · simp [login, hfind, hc] at hr

/-- C9 witness: verbatim storage on an empty store and an exact-match
successful login on a one-user store. -/
theorem email_exact_match_witness :
    (∃ doc : UserDoc,
      (signup ⟨"a@b.co", "pw", "nm"⟩ ⟨[], 0⟩ 1 0).2.docs = [] ++ [doc] ∧
      doc.email = "a@b.co") ∧
    (∃ doc : UserDoc,
      doc ∈ ([⟨0, "a@b.co", "n", .bcryptDigest 1 "pw", 0⟩] :
          List UserDoc) ∧
      doc.email = "a@b.co" ∧
      (⟨Jwt.signed ⟨some (.wellFormed 0), 1800⟩ "sec" "HS256", "bearer",
        .wellFormed 0, "n", "a@b.co"⟩ : TokenResponse).email =
        doc.email) :=
  ⟨(email_exact_match ⟨[], 0⟩ ⟨"a@b.co", "pw", "nm"⟩ ⟨"a@b.co", "pw"⟩
      1 0 0 "sec").1 (by intro d hd; simp at hd),
   (email_exact_match ⟨[⟨0, "a@b.co", "n", .bcryptDigest 1 "pw", 0⟩], 1⟩
      ⟨"a@b.co", "pw", "nm"⟩ ⟨"a@b.co", "pw"⟩ 1 0 0 "sec").2
     ⟨Jwt.signed ⟨some (.wellFormed 0), 1800⟩ "sec" "HS256", "bearer",
      .wellFormed 0, "n", "a@b.co"⟩ (by decide)⟩

/-- C10: the audio lookup matches the stored language field against the
lowercased query, so the query is case-insensitive and a returned
language key is always lowercase (a document stored with uppercase
letters in its language can never be matched); when the matched document
lacks createdAt or updatedAt the response carries empty strings. -/
theorem get_audio_spec
    (db : List AudioDoc) (lang l1 l2 : String) (resp : AudioResponse)
    (doc : AudioDoc) :
    (get_audio_url db lang = .ok resp →
      resp.language = pyLower lang ∧
      pyLower resp.language = resp.language) ∧
    (pyLower l1 = pyLower l2 →
      (get_audio_url db l1 = .ok resp ↔ get_audio_url db l2 = .ok resp)) ∧
    (db.find? (fun d => d.language == pyLower lang) = some doc →
      doc.createdAt = none → doc.updatedAt = none →
      get_audio_url db lang = .ok ⟨doc.language, doc.url, "", ""⟩) := by
  refine ⟨?_, ?_, ?_⟩
  · intro h
    rcases hfind : db.find? (fun d => d.language == pyLower lang)
      with _ | d
    · simp [get_audio_url, hfind] at h
    · have hl : d.language = pyLower lang := by
        simpa using List.find?_some hfind
      simp [get_audio_url, hfind] at h
      constructor
      · rw [← h, hl]
      · rw [← h]
        show pyLower d.language = d.language
        rw [hl, pyLower_idem]
  · intro h
    rcases hf1 : db.find? (fun d => d.language == pyLower l1) with _ | d
    · have hf2 : db.find? (fun d => d.language == pyLower l2) = none := by
        rw [← h]
        exact hf1
      simp [get_audio_url, hf1, hf2]
    · have hf2 : db.find? (fun d => d.language == pyLower l2) = some d := by
        rw [← h]
        exact hf1
      simp [get_audio_url, hf1, hf2]
  · intro hfind hc hu
    simp [get_audio_url, hfind, hc, hu]

/-- C10 witness: a seeded lowercase english document is found by the
query English and its absent timestamps come back as empty strings. -/
theorem get_audio_spec_witness :
    (([⟨"english", "https://e.x/a.mp3", none, none⟩] :
        List AudioDoc).find? (fun d => d.language == pyLower "English") =
      some ⟨"english", "https://e.x/a.mp3", none, none⟩) ∧
    get_audio_url [⟨"english", "https://e.x/a.mp3", none, none⟩]
        "English" =
      .ok ⟨"english", "https://e.x/a.mp3", "", ""⟩ :=
  ⟨by decide,
   (get_audio_spec [⟨"english", "https://e.x/a.mp3", none, none⟩]
      "English" "x" "y" ⟨"", "", "", ""⟩
      ⟨"english", "https://e.x/a.mp3", none, none⟩).2.2
     (by decide) rfl rfl⟩

end ElevenClone
